import Mathlib

/-!
Verification of the `ampersand-server` media bridge (`src/outbound.js`).

The file shallowly embeds the per-call WebSocket bridge between a Twilio
media stream and an ElevenLabs conversational-AI connection, plus the
process-wide observer registry (`callClientMap`), as pure Lean functions:

* message handlers are translated from the `ws.on("message")` and
  `elevenLabsWs.on("message")` callbacks into a step function on an
  explicit per-session state;
* the Node `Buffer.from(p, "base64").toString("base64")` round trip of the
  media branch is embedded as `nodeB64Encode (nodeB64Decode p)` with a
  faithful base64 codec (Node ignores characters outside the alphabet,
  accepts unpadded input, and re-encodes canonically with padding);
* the registry is an association list with the `Map.set` / `Map.delete` /
  `Map.get` semantics actually used by the code.

Effects (socket sends, closes, log lines) are reified as an `Output` list
so properties about what is and is not sent can be stated directly.
-/

namespace Ampersand

/-- Custom parameters carried in the Twilio `start` frame
(`message.start.customParameters`); the code reads the optional
`prompt` and `first_message` keys. -/
structure CustomParams where
  prompt : Option String
  first_message : Option String
deriving Repr, DecidableEq

/-- Data of a Twilio `start` event (`message.start`). -/
structure StartData where
  streamSid : String
  callSid : String
  customParameters : CustomParams
deriving Repr, DecidableEq

/-- Parsed Twilio frames, as discriminated by `message.event` in
`ws.on("message")`.  `malformed` stands for a frame on which
`JSON.parse` (or the subsequent field access) throws, landing in the
`catch` block; `other` is parseable JSON whose `event` matches no
branch (the code falls through silently). -/
inductive TwilioMsg
  | start (d : StartData)
  | media (payload : String)
  | stop
  | other
  | malformed
deriving Repr, DecidableEq

/-- Parsed ElevenLabs frames, as discriminated by `message.type` in
`elevenLabsWs.on("message")`.  For `audio`, the two optional fields model
`message.audio?.chunk` and `message.audio_event?.audio_base_64`. -/
inductive ElevenMsg
  | agentResponse (text : String)
  | userTranscript (text : String)
  | audio (chunk : Option String) (audioBase64 : Option String)
  | interruption
  | other (ty : String)
  | malformed
deriving Repr, DecidableEq

/-- Frames the bridge sends to the Twilio connection:
`{event:"media", streamSid, media:{payload}}` and
`{event:"clear", streamSid}`. -/
inductive Frame
  | media (streamSid : String) (payload : String)
  | clear (streamSid : String)
deriving Repr, DecidableEq

/-- Events `sendToFrontend` pushes to the observer:
`{event:"transcript", speaker, text}`. -/
inductive FrontendEvent
  | transcript (speaker : String) (text : String)
deriving Repr, DecidableEq

/-- Reified effects of the handlers.  `closeTwilio` is the effect the ws
API offers for closing the telephony socket; no handler in
`outbound.js` ever performs it, which is itself a provable property.
`beginAiSetup` is the `setupElevenLabs()` invocation; it is performed
only once, when the telephony connection is accepted. -/
inductive Output
  | toElevenInit (prompt : String) (firstMessage : String)
  | toElevenAudio (chunk : String)
  | toTwilio (f : Frame)
  | toFrontend (callSid : Option String) (e : FrontendEvent)
  | closeEleven
  | closeTwilio
  | beginAiSetup
  | log (s : String)
deriving Repr, DecidableEq

/-- Per-session mutable state of the `/outbound-media-stream` handler:
the `let streamSid / callSid / customParameters / elevenLabsWs`
variables.  `elevenOpen` embeds `elevenLabsWs?.readyState ===
WebSocket.OPEN`, the only fact about the AI socket the handlers
branch on. -/
structure BridgeState where
  streamSid : Option String
  callSid : Option String
  customParameters : Option CustomParams
  elevenOpen : Bool
deriving Repr, DecidableEq

/-- State at connection accept: all session variables are `null`
(`let streamSid = null` …), and the AI socket is not open. -/
def initState : BridgeState := ⟨none, none, none, false⟩

/-- The synchronous body of the `/outbound-media-stream` connection
handler: initialize the session variables and invoke
`setupElevenLabs()` (line 236) — before any telephony frame has been
processed. -/
def onConnect : BridgeState × List Output := (initState, [Output.beginAiSetup])

/- ### Node base64 codec (`Buffer.from(p, "base64").toString("base64")`) -/

/-- The standard base64 alphabet. -/
def b64Alphabet : List Char :=
  "ABCDEFGHIJKLMNOPQRSTUVWXYZabcdefghijklmnopqrstuvwxyz0123456789+/".toList

/-- Character of a sextet value (total; callers keep `n < 64`). -/
def b64Char (n : Nat) : Char := b64Alphabet.getD n 'A'

/-- Index of a character in the base64 alphabet, `none` for characters
outside it (Node's decoder skips those, `=` included).  Node also
accepts the RFC 4648 URL-safe variant, mapping `-` to 62 and `_`
to 63. -/
def b64Index (c : Char) : Option Nat :=
  if c = '-' then some 62
  else if c = '_' then some 63
  else b64Alphabet.findIdx? (fun x => x == c)

/-- Regroup a sextet stream into bytes, as Node's base64 decoder does:
4 sextets → 3 bytes; a trailing group of 3 → 2 bytes, of 2 → 1 byte,
of 1 → nothing. -/
def sextetsToBytes : List Nat → List Nat
  | s1 :: s2 :: s3 :: s4 :: rest =>
      (s1 * 4 + s2 / 16) :: ((s2 % 16) * 16 + s3 / 4) :: ((s3 % 4) * 64 + s4)
        :: sextetsToBytes rest
  | [s1, s2, s3] => [s1 * 4 + s2 / 16, (s2 % 16) * 16 + s3 / 4]
  | [s1, s2] => [s1 * 4 + s2 / 16]
  | [_] => []
  | [] => []

/-- Canonical base64 character stream of a byte list, padded with `=`,
as `buffer.toString("base64")` produces. -/
def bytesToB64 : List Nat → List Char
  | b1 :: b2 :: b3 :: rest =>
      b64Char (b1 / 4) :: b64Char ((b1 % 4) * 16 + b2 / 16)
        :: b64Char ((b2 % 16) * 4 + b3 / 64) :: b64Char (b3 % 64)
        :: bytesToB64 rest
  | [b1, b2] => [b64Char (b1 / 4), b64Char ((b1 % 4) * 16 + b2 / 16),
                 b64Char ((b2 % 16) * 4), '=']
  | [b1] => [b64Char (b1 / 4), b64Char ((b1 % 4) * 16), '=', '=']
  | [] => []

/-- `Buffer.from(s, "base64")`: drop characters outside the alphabet,
then regroup sextets into bytes. -/
def nodeB64Decode (s : String) : List Nat :=
  sextetsToBytes (s.toList.filterMap b64Index)

/-- `buffer.toString("base64")`: canonical padded encoding. -/
def nodeB64Encode (bs : List Nat) : String :=
  String.mk (bytesToB64 bs)

/-- The `user_audio_chunk` value built in the telephony `media` branch:
`Buffer.from(message.media.payload, "base64").toString("base64")`. -/
def forwardedChunk (payload : String) : String :=
  nodeB64Encode (nodeB64Decode payload)

/- ### Handler embeddings -/

/-- JavaScript `x || d` for an optional string (`undefined` and `""` are
falsy). -/
def jsOr (s : Option String) (d : String) : String :=
  match s with
  | some v => if v = "" then d else v
  | none => d

/-- JavaScript truthiness filter for an optional string field:
`some ""` behaves like an absent field. -/
def truthy (s : Option String) : Option String :=
  match s with
  | some v => if v = "" then none else some v
  | none => none

/-- Default prompt hard-coded in `initialConfig`. -/
def defaultPrompt : String := "you are gary from the phone store"

/-- Default first message hard-coded in `initialConfig`. -/
def defaultFirstMessage : String := "Hey, how can I help you today?"

/-- `customParameters?.prompt || defaultPrompt`. -/
def promptOf (cp : Option CustomParams) : String :=
  jsOr (cp.bind (·.prompt)) defaultPrompt

/-- `customParameters?.first_message || defaultFirstMessage`. -/
def firstMessageOf (cp : Option CustomParams) : String :=
  jsOr (cp.bind (·.first_message)) defaultFirstMessage

/-- Log line of the telephony-side `catch` block. -/
def twilioErrLog : String := "Error processing message from Twilio:"

/-- Log line of the AI-side `catch` block. -/
def elevenErrLog : String := "Error processing message from ElevenLabs:"

/-- Log line when audio arrives with no streamSid. -/
def noSidLog : String := "[ElevenLabs] Received audio but no StreamSid yet"

/-- Log line of the `setupElevenLabs` `catch` block. -/
def setupErrLog : String := "Error setting up ElevenLabs WebSocket:"

/-- Log line of `elevenLabsWs.on("close")`. -/
def elDisconnectedLog : String := "[ElevenLabs] Disconnected"

/-- JavaScript template-literal rendering of a possibly-null string
variable (a `null` renders as the text "null"). -/
def jsShow (s : Option String) : String :=
  match s with
  | some v => v
  | none => "null"

/-- The `ws.on("message")` callback (lines 238–260 of `outbound.js`):
`start` reassigns the session variables unconditionally; `media`
forwards the re-encoded payload only when the AI socket is OPEN
(silently dropped otherwise); `stop` closes the AI socket if OPEN;
unknown events fall through; a throwing frame is logged. -/
def handleTwilioMsg (st : BridgeState) (m : TwilioMsg) : BridgeState × List Output :=
  match m with
  | .start d =>
      ({ st with streamSid := some d.streamSid, callSid := some d.callSid,
                 customParameters := some d.customParameters },
       [.log ("Stream started for callSid: " ++ d.callSid)])
  | .media payload =>
      if st.elevenOpen then
        (st, [.toElevenAudio (forwardedChunk payload)])
      else
        (st, [])
  | .stop =>
      if st.elevenOpen then
        ({ st with elevenOpen := false }, [.closeEleven])
      else
        (st, [])
  | .other => (st, [])
  | .malformed => (st, [.log twilioErrLog])

/-- The `elevenLabsWs.on("message")` callback (lines 175–226):
transcripts are pushed to the observer via `sendToFrontend`; `audio`
emits a Twilio media frame from `audio.chunk`, else
`audio_event.audio_base_64` (JS truthiness: empty strings are falsy),
provided `if (streamSid)` holds — else it only logs; `interruption`
emits a `clear` frame when `if (streamSid)` holds and otherwise does
nothing; unknown types are logged; a throwing frame is logged.  The
`if (streamSid)` guards at lines 189 and 215 are JS-truthy: both a
`null` and an empty-string `streamSid` count as unknown, which
`truthy st.streamSid` renders. -/
def handleElevenMsg (st : BridgeState) (m : ElevenMsg) : BridgeState × List Output :=
  match m with
  | .agentResponse t =>
      (st, [.toFrontend st.callSid (.transcript "Agent" t)])
  | .userTranscript t =>
      (st, [.toFrontend st.callSid (.transcript "User" t)])
  | .audio chunk audioBase64 =>
      match truthy st.streamSid with
      | some sid =>
          match truthy chunk with
          | some c => (st, [.toTwilio (.media sid c)])
          | none =>
              match truthy audioBase64 with
              | some c => (st, [.toTwilio (.media sid c)])
              | none => (st, [])
      | none => (st, [.log noSidLog])
  | .interruption =>
      match truthy st.streamSid with
      | some sid => (st, [.toTwilio (.clear sid)])
      | none => (st, [])
  | .other ty => (st, [.log ("[ElevenLabs] Unhandled message type: " ++ ty)])
  | .malformed => (st, [.log elevenErrLog])

/-- Session-level events: a frame on either socket, the AI socket's
`open` handler (sends `initialConfig` built from the parameters
captured so far), the AI socket's `close` handler (logs only), the
telephony socket's `close` handler (closes the AI socket if OPEN),
and failure of `setupElevenLabs` (its `catch`: logs only). -/
inductive Event
  | twilioMsg (m : TwilioMsg)
  | elevenMsg (m : ElevenMsg)
  | elevenOpened
  | elevenClosed
  | twilioClose
  | setupFailed
deriving Repr, DecidableEq

/-- One step of the session: dispatch an event to its handler, exactly
as the callbacks in `outbound.js` do. -/
def step (st : BridgeState) (e : Event) : BridgeState × List Output :=
  match e with
  | .twilioMsg m => handleTwilioMsg st m
  | .elevenMsg m => handleElevenMsg st m
  | .elevenOpened =>
      ({ st with elevenOpen := true },
       [.toElevenInit (promptOf st.customParameters) (firstMessageOf st.customParameters)])
  | .elevenClosed =>
      ({ st with elevenOpen := false }, [.log elDisconnectedLog])
  | .twilioClose =>
      if st.elevenOpen then
        ({ st with elevenOpen := false },
         [.closeEleven,
          .log ("Twilio stream closed for callSid: " ++ jsShow st.callSid)])
      else
        (st, [.log ("Twilio stream closed for callSid: " ++ jsShow st.callSid)])
  | .setupFailed => (st, [.log setupErrLog])

/-- Run a sequence of events from a state, concatenating outputs in
order. -/
def run (st : BridgeState) : List Event → BridgeState × List Output
  | [] => (st, [])
  | e :: es =>
      ((run (step st e).1 es).1, (step st e).2 ++ (run (step st e).1 es).2)

/-- The audio chunks a list of outputs sends to the AI connection
(`{user_audio_chunk: …}` messages). -/
def elevenAudioSends (l : List Output) : List String :=
  l.filterMap (fun o => match o with | .toElevenAudio c => some c | _ => none)

/-- The frontend pushes among a list of outputs. -/
def frontendSends (l : List Output) : List (Option String × FrontendEvent) :=
  l.filterMap (fun o => match o with | .toFrontend c e => some (c, e) | _ => none)

/-- Whether an event is a Twilio `start` frame. -/
def Event.isStart : Event → Bool
  | .twilioMsg (.start _) => true
  | _ => false

/-- Whether an event is the AI socket's `open` callback. -/
def Event.isElevenOpened : Event → Bool
  | .elevenOpened => true
  | _ => false

/-- Whether an output closes the telephony connection. -/
def Output.isCloseTwilio : Output → Bool
  | .closeTwilio => true
  | _ => false

/-- Whether an output is an invocation of `setupElevenLabs` (the only
way an AI connection attempt can start, so its absence from every
handler's outputs is the absence of any retry). -/
def Output.isBeginSetup : Output → Bool
  | .beginAiSetup => true
  | _ => false

/- ### Observer registry (`callClientMap` and `/transcription-stream/:callSid`) -/

/-- The process-wide `callClientMap`, keyed by `callSid`; observer
connections are identified by an abstract id.  An association list with
`Map` lookup semantics (iteration order is never used by the code). -/
abbrev Registry := List (String × Nat)

/-- `callClientMap.delete(callSid)`. -/
def registryDelete (r : Registry) (k : String) : Registry :=
  r.filter (fun p => !(p.1 == k))

/-- `callClientMap.set(callSid, ws)` — overwrites any prior entry for
the key. -/
def registrySet (r : Registry) (k : String) (v : Nat) : Registry :=
  (k, v) :: registryDelete r k

/-- `callClientMap.get(callSid)`. -/
def registryGet (r : Registry) (k : String) : Option Nat :=
  (r.find? (fun p => p.1 == k)).map (·.2)

/-- The `/transcription-stream/:callSid` connection handler:
`callClientMap.set(callSid, ws)`. -/
def observerConnect (r : Registry) (callSid : String) (obsId : Nat) : Registry :=
  registrySet r callSid obsId

/-- The observer's `close` and `error` handlers: both do
`callClientMap.delete(callSid)` with the `callSid` captured at connect
time, regardless of which connection the map currently holds. -/
def observerClosed (r : Registry) (callSid : String) : Registry :=
  registryDelete r callSid

/-- `sendToFrontend` (lines 146–153): look the session's `callSid` up in
`callClientMap`; deliver if an entry exists and its socket is OPEN,
otherwise warn.  Returns the id of the observer delivered to, `none`
for the warning no-op.  `openObs` tells which observer sockets are
currently OPEN. -/
def sendToFrontend (r : Registry) (openObs : Nat → Bool) (callSid : Option String) :
    Option Nat :=
  match callSid with
  | some c =>
      match registryGet r c with
      | some o => if openObs o then some o else none
      | none => none
  | none => none

/- ### Base64 round-trip lemmas -/

/-- Every sextet value decodes back to itself through the alphabet. -/
theorem b64Index_b64Char : ∀ n, n < 64 → b64Index (b64Char n) = some n := by
  decide

/-- The padding character is outside the alphabet, so the decoder skips
it. -/
theorem b64Index_pad : b64Index '=' = none := by
  decide

/-- Decoding the canonical encoding of a byte list recovers the bytes:
the sextet regrouping inverts the byte-to-sextet split. -/
theorem sextets_bytes_roundtrip :
    ∀ bs : List Nat, (∀ b ∈ bs, b < 256) →
      sextetsToBytes ((bytesToB64 bs).filterMap b64Index) = bs
  | [], _ => rfl
  | [b1], h => by
      have h1 : b1 < 256 := h b1 (by simp)
      simp only [bytesToB64, List.filterMap_cons]
      rw [b64Index_b64Char _ (by omega), b64Index_b64Char _ (by omega), b64Index_pad]
      simp only [List.filterMap_nil, sextetsToBytes, List.cons.injEq, and_true]
      omega
  | [b1, b2], h => by
      have h1 : b1 < 256 := h b1 (by simp)
      have h2 : b2 < 256 := h b2 (by simp)
      simp only [bytesToB64, List.filterMap_cons]
      rw [b64Index_b64Char _ (by omega), b64Index_b64Char _ (by omega),
        b64Index_b64Char _ (by omega), b64Index_pad]
      simp only [List.filterMap_nil, sextetsToBytes, List.cons.injEq, and_true]
      omega
  | b1 :: b2 :: b3 :: rest, h => by
      have h1 : b1 < 256 := h b1 (by simp)
      have h2 : b2 < 256 := h b2 (by simp)
      have h3 : b3 < 256 := h b3 (by simp)
      have ih := sextets_bytes_roundtrip rest (fun b hb => h b (by simp [hb]))
      simp only [bytesToB64, List.filterMap_cons]
      rw [b64Index_b64Char _ (by omega), b64Index_b64Char _ (by omega),
        b64Index_b64Char _ (by omega), b64Index_b64Char _ (by omega)]
      simp only [sextetsToBytes, ih, List.cons.injEq, and_true]
      omega

/-- `Buffer.from(buf.toString("base64"), "base64")` recovers `buf`. -/
theorem nodeB64_decode_encode (bs : List Nat) (h : ∀ b ∈ bs, b < 256) :
    nodeB64Decode (nodeB64Encode bs) = bs :=
  sextets_bytes_roundtrip bs h

/-- On canonical base64 input the decode-then-re-encode step of the
`media` branch is the identity. -/
theorem forwardedChunk_encode (bs : List Nat) (h : ∀ b ∈ bs, b < 256) :
    forwardedChunk (nodeB64Encode bs) = nodeB64Encode bs := by
  unfold forwardedChunk
  rw [nodeB64_decode_encode bs h]

/- ### Structural lemmas about the handlers -/

/-- The AI-side message handler never mutates the session state (it only
reads `callSid` and `streamSid`). -/
theorem handleElevenMsg_fst (st : BridgeState) (m : ElevenMsg) :
    (handleElevenMsg st m).1 = st := by
  unfold handleElevenMsg
  cases m <;> (repeat' split) <;> rfl

/-- The AI-side message handler never sends audio to the AI connection. -/
theorem handleElevenMsg_no_elevenAudio (st : BridgeState) (m : ElevenMsg) :
    elevenAudioSends (handleElevenMsg st m).2 = [] := by
  unfold handleElevenMsg
  cases m <;> (repeat' split) <;> rfl

/-- `elevenAudioSends` distributes over output concatenation. -/
theorem elevenAudioSends_append (a b : List Output) :
    elevenAudioSends (a ++ b) = elevenAudioSends a ++ elevenAudioSends b :=
  List.filterMap_append ..

/-- While the AI socket has never reported open, one step neither opens
it nor sends it audio. -/
theorem step_closed_no_audio (st : BridgeState) (e : Event)
    (hst : st.elevenOpen = false) (he : e.isElevenOpened = false) :
    (step st e).1.elevenOpen = false ∧ elevenAudioSends (step st e).2 = [] := by
  cases e with
  | twilioMsg m =>
      cases m <;> simp [step, handleTwilioMsg, hst, elevenAudioSends]
  | elevenMsg m =>
      refine ⟨?_, handleElevenMsg_no_elevenAudio st m⟩
      rw [show (step st (.elevenMsg m)).1 = (handleElevenMsg st m).1 from rfl,
          handleElevenMsg_fst]
      exact hst
  | elevenOpened => simp [Event.isElevenOpened] at he
  | elevenClosed => simp [step, elevenAudioSends]
  | twilioClose => simp [step, hst, elevenAudioSends]
  | setupFailed => simp [step, elevenAudioSends, hst]

/-- A run containing no AI-socket `open` callback leaves the AI socket
closed and sends it no audio. -/
theorem run_closed_no_audio :
    ∀ (es : List Event) (st : BridgeState), st.elevenOpen = false →
      (∀ e ∈ es, e.isElevenOpened = false) →
      (run st es).1.elevenOpen = false ∧ elevenAudioSends (run st es).2 = []
  | [], _, hst, _ => ⟨hst, rfl⟩
  | e :: es, st, hst, hes => by
      have h1 := step_closed_no_audio st e hst (hes e (by simp))
      have h2 := run_closed_no_audio es (step st e).1 h1.1
        (fun x hx => hes x (by simp [hx]))
      simp only [run]
      exact ⟨h2.1, by rw [elevenAudioSends_append, h1.2, h2.2]; rfl⟩

/-- Looking a key up right after deleting it finds nothing. -/
theorem registryGet_delete (r : Registry) (k : String) :
    registryGet (registryDelete r k) k = none := by
  induction r with
  | nil => rfl
  | cons p r ih =>
      unfold registryDelete registryGet at *
      rw [List.filter_cons]
      cases h : (p.1 == k) with
      | true => simp [h]
      | false => simp [h, List.find?_cons]

/- ### Claims -/

/-- C1, counterexample.  The claim says that no audio from pre-`start`
telephony `media` frames reaches the AI connection and that the AI
connection is not opened before `start`.  In the code,
`setupElevenLabs()` runs at telephony-connection accept, so the AI
socket can be open before any `start` frame; the `media` branch guards
only on `readyState === OPEN`.  Concretely: in the trace where the AI
socket opens and then a `media` frame arrives, with no `start` event
anywhere, the frame's payload is forwarded to the AI connection. -/
theorem c1_counterexample :
    ([Event.elevenOpened, Event.twilioMsg (.media "QUJD")].all
        (fun e => !e.isStart)) = true ∧
    elevenAudioSends
        (run initState [Event.elevenOpened, Event.twilioMsg (.media "QUJD")]).2
      = ["QUJD"] := by
  exact ⟨rfl, by decide⟩

/-- C1 (amended): media frames arriving while the AI connection is not
yet open are dropped, not queued (the handler leaves the state unchanged
and emits nothing); in any run in which the AI socket never reports
open, no audio at all is sent to the AI connection.  However, the AI
connection setup is initiated at telephony-connection accept — before
the `start` event — so a pre-`start` media frame arriving once the AI
socket is open IS forwarded. -/
theorem c1_amended :
    (∀ es : List Event, (∀ e ∈ es, e.isElevenOpened = false) →
        elevenAudioSends (run initState es).2 = []) ∧
    (∀ (st : BridgeState) (p : String), st.elevenOpen = false →
        handleTwilioMsg st (.media p) = (st, [])) ∧
    onConnect = (initState, [Output.beginAiSetup]) := by
  refine ⟨fun es hes => (run_closed_no_audio es initState rfl hes).2,
    fun st p hst => ?_, rfl⟩
  simp [handleTwilioMsg, hst]

/-- Witness for C1: instantiating the amended theorem on a concrete
pre-open trace and a concrete state. -/
theorem c1_witness :
    elevenAudioSends
        (run initState [Event.twilioMsg (.media "QUJD"), Event.twilioMsg .stop]).2 = [] ∧
    handleTwilioMsg initState (.media "QUJD") = (initState, []) :=
  ⟨c1_amended.1 _ (by decide), c1_amended.2.1 _ _ rfl⟩

/-- C2, counterexample.  The claim says a failed signed-URL fetch / AI
setup makes the bridge close the telephony connection.  The `catch` of
`setupElevenLabs` only logs: at the initial state, the setup-failure
event leaves the state unchanged, emits exactly one log line, and in
particular does not close the telephony socket. -/
theorem c2_counterexample :
    step initState Event.setupFailed = (initState, [Output.log setupErrLog]) ∧
    Output.closeTwilio ∉ (step initState Event.setupFailed).2 :=
  ⟨rfl, by decide⟩

/-- C2 (amended): a failure of the signed-URL fetch or the AI-connection
setup is only logged; no retry is attempted (no handler ever invokes
`setupElevenLabs` again) and the telephony connection is NOT torn down —
no handler ever closes the telephony socket, so it stays open without an
AI peer. -/
theorem c2_amended :
    (∀ st : BridgeState, step st Event.setupFailed = (st, [Output.log setupErrLog])) ∧
    (∀ (st : BridgeState) (e : Event),
        ((step st e).2.all (fun o => !o.isCloseTwilio)) = true) ∧
    (∀ (st : BridgeState) (e : Event),
        ((step st e).2.all (fun o => !o.isBeginSetup)) = true) := by
  refine ⟨fun st => rfl, fun st e => ?_, fun st e => ?_⟩ <;>
    · unfold step handleTwilioMsg handleElevenMsg
      (repeat' split) <;> rfl

/-- C3, counterexample.  The claim says teardown is symmetric.  The
`elevenLabsWs.on("close")` handler only logs `"[ElevenLabs]
Disconnected"`: at a state where the telephony leg is live (identifiers
set) and the AI socket was open, the AI-close event emits no close of
the telephony socket. -/
theorem c3_counterexample :
    step ⟨some "ST1", some "CA1", none, true⟩ Event.elevenClosed
      = (⟨some "ST1", some "CA1", none, false⟩, [Output.log elDisconnectedLog]) ∧
    Output.closeTwilio ∉ (step ⟨some "ST1", some "CA1", none, true⟩ Event.elevenClosed).2 :=
  ⟨rfl, by decide⟩

/-- C3 (amended): teardown is one-directional.  Closing the telephony
connection while the AI connection is open closes the AI connection (and
logs); but closing the AI connection only logs — the telephony
connection is never closed by it. -/
theorem c3_amended :
    (∀ st : BridgeState, st.elevenOpen = true →
        step st Event.twilioClose
          = ({ st with elevenOpen := false },
             [Output.closeEleven,
              Output.log ("Twilio stream closed for callSid: " ++ jsShow st.callSid)])) ∧
    (∀ st : BridgeState,
        step st Event.elevenClosed
          = ({ st with elevenOpen := false }, [Output.log elDisconnectedLog]) ∧
        Output.closeTwilio ∉ (step st Event.elevenClosed).2) := by
  refine ⟨fun st h => ?_, fun st => ⟨rfl, by simp [step]⟩⟩
  simp [step, h]

/-- Witness for C3: the telephony-close direction at a concrete live
state. -/
theorem c3_witness :
    (⟨some "ST1", some "CA1", none, true⟩ : BridgeState).elevenOpen = true ∧
    step ⟨some "ST1", some "CA1", none, true⟩ Event.twilioClose
      = (⟨some "ST1", some "CA1", none, false⟩,
         [Output.closeEleven, Output.log "Twilio stream closed for callSid: CA1"]) :=
  ⟨rfl, c3_amended.1 _ rfl⟩

/-- C4, counterexample.  The claim says the observer also receives the
media/clear frames mirrored from the AI leg.  In the code the `audio`
and `interruption` cases send only to the Twilio socket, never through
`sendToFrontend`: a concrete AI audio message at a live state produces
exactly one Twilio media frame and no frontend push. -/
theorem c4_counterexample :
    handleElevenMsg ⟨some "ST1", some "CA1", none, true⟩ (.audio (some "QUJD") none)
      = (⟨some "ST1", some "CA1", none, true⟩,
         [Output.toTwilio (.media "ST1" "QUJD")]) ∧
    frontendSends (handleElevenMsg ⟨some "ST1", some "CA1", none, true⟩
        (.audio (some "QUJD") none)).2 = [] :=
  ⟨by decide, by decide⟩

/-- C4 (amended): the server pushes to a registered observer the
transcript events `{event:"transcript", speaker:"Agent"|"User", text}`
for `agent_response` and `user_transcript` messages; the media and clear
frames derived from the AI leg go only to the telephony connection and
are never pushed to the observer. -/
theorem c4_amended :
    (∀ (st : BridgeState) (t : String),
        handleElevenMsg st (.agentResponse t)
          = (st, [Output.toFrontend st.callSid (.transcript "Agent" t)])) ∧
    (∀ (st : BridgeState) (t : String),
        handleElevenMsg st (.userTranscript t)
          = (st, [Output.toFrontend st.callSid (.transcript "User" t)])) ∧
    (∀ (st : BridgeState) (c b : Option String),
        frontendSends (handleElevenMsg st (.audio c b)).2 = []) ∧
    (∀ st : BridgeState, frontendSends (handleElevenMsg st .interruption).2 = []) := by
  refine ⟨fun st t => rfl, fun st t => rfl, fun st c b => ?_, fun st => ?_⟩
  · rcases hs : truthy st.streamSid with _ | sid
    · simp [handleElevenMsg, hs, frontendSends]
    · rcases hc : truthy c with _ | c' <;> rcases hb : truthy b with _ | b' <;>
        simp [handleElevenMsg, hs, hc, hb, frontendSends]
  · rcases hs : truthy st.streamSid with _ | sid <;>
      simp [handleElevenMsg, hs, frontendSends]

/-- C5, counterexample.  The claim says `callSid` and `streamSid` are
assigned exactly once, at the first `start`, and never mutated by later
frames including further `start` events.  The `start` branch has no
write-once guard: a second `start` frame overwrites both. -/
theorem c5_counterexample :
    (run initState [Event.twilioMsg (.start ⟨"S1", "C1", ⟨none, none⟩⟩)]).1.streamSid
      = some "S1" ∧
    (run initState [Event.twilioMsg (.start ⟨"S1", "C1", ⟨none, none⟩⟩),
                    Event.twilioMsg (.start ⟨"S2", "C2", ⟨none, none⟩⟩)]).1.streamSid
      = some "S2" ∧
    (some "S2" : Option String) ≠ some "S1" :=
  ⟨rfl, rfl, by decide⟩

/-- C5 (amended): `callSid` and `streamSid` are assigned at every
`start` event — each `start` frame overwrites them (so they are set
exactly once only when a single `start` arrives) — and no other event on
either connection ever mutates them. -/
theorem c5_amended :
    (∀ (st : BridgeState) (d : StartData),
        handleTwilioMsg st (.start d)
          = ({ st with streamSid := some d.streamSid, callSid := some d.callSid,
                       customParameters := some d.customParameters },
             [Output.log ("Stream started for callSid: " ++ d.callSid)])) ∧
    (∀ (st : BridgeState) (e : Event), e.isStart = false →
        (step st e).1.streamSid = st.streamSid ∧ (step st e).1.callSid = st.callSid) := by
  refine ⟨fun st d => rfl, fun st e he => ?_⟩
  cases e with
  | twilioMsg m =>
      cases m with
      | start d => simp [Event.isStart] at he
      | media p => by_cases h : st.elevenOpen <;> simp [step, handleTwilioMsg, h]
      | stop => by_cases h : st.elevenOpen <;> simp [step, handleTwilioMsg, h]
      | other => exact ⟨rfl, rfl⟩
      | malformed => exact ⟨rfl, rfl⟩
  | elevenMsg m =>
      rw [show (step st (.elevenMsg m)).1 = (handleElevenMsg st m).1 from rfl,
          handleElevenMsg_fst]
      exact ⟨rfl, rfl⟩
  | elevenOpened => exact ⟨rfl, rfl⟩
  | elevenClosed => exact ⟨rfl, rfl⟩
  | twilioClose => by_cases h : st.elevenOpen <;> simp [step, h]
  | setupFailed => exact ⟨rfl, rfl⟩

/-- Witness for C5: a non-`start` event at a concrete state leaves the
identifiers untouched. -/
theorem c5_witness :
    Event.isStart (Event.elevenMsg .interruption) = false ∧
    (step ⟨some "ST1", some "CA1", none, true⟩ (Event.elevenMsg .interruption)).1.streamSid
      = some "ST1" ∧
    (step ⟨some "ST1", some "CA1", none, true⟩ (Event.elevenMsg .interruption)).1.callSid
      = some "CA1" :=
  ⟨rfl,
   (c5_amended.2 ⟨some "ST1", some "CA1", none, true⟩ (Event.elevenMsg .interruption) rfl).1,
   (c5_amended.2 ⟨some "ST1", some "CA1", none, true⟩ (Event.elevenMsg .interruption) rfl).2⟩

/-- C6: a `start` with `streamSid = S` stores `S`; thereafter each AI
audio message carrying a (nonempty, i.e. JS-truthy) chunk under
`audio.chunk` — or under `audio_event.audio_base_64` when the former is
absent — is translated into exactly the frame `{event:"media",
streamSid:S, media:{payload:<chunk>}}` sent to the telephony connection;
with no streamSid known (the JS-falsy cases: `null` or the empty
string, on which `if (streamSid)` fails) the chunk is dropped with only
a log line.  The `S ≠ ""` hypothesis mirrors that guard: an
empty-string streamSid counts as unknown. -/
theorem c6_thm (st : BridgeState) (S : String) :
    (∀ d : StartData, (handleTwilioMsg st (.start d)).1.streamSid = some d.streamSid) ∧
    (∀ (c : String) (b : Option String), st.streamSid = some S → S ≠ "" → c ≠ "" →
        handleElevenMsg st (.audio (some c) b)
          = (st, [Output.toTwilio (.media S c)])) ∧
    (∀ c : String, st.streamSid = some S → S ≠ "" → c ≠ "" →
        handleElevenMsg st (.audio none (some c))
          = (st, [Output.toTwilio (.media S c)])) ∧
    (∀ c b : Option String, truthy st.streamSid = none →
        handleElevenMsg st (.audio c b) = (st, [Output.log noSidLog])) := by
  refine ⟨fun d => rfl, fun c b hs hS hc => ?_, fun c hs hS hc => ?_, fun c b hs => ?_⟩
  · simp [handleElevenMsg, hs, truthy, hS, hc]
  · simp [handleElevenMsg, hs, truthy, hS, hc]
  · simp [handleElevenMsg, hs]

/-- Witness for C6: the end-to-end scenario of the spec — after
`start{streamSid:"ST1"}`, the AI chunk `"QUJD"` becomes the frame
`{event:"media", streamSid:"ST1", media:{payload:"QUJD"}}`. -/
theorem c6_witness :
    (⟨some "ST1", some "CA1", none, true⟩ : BridgeState).streamSid = some "ST1" ∧
    ("ST1" : String) ≠ "" ∧
    ("QUJD" : String) ≠ "" ∧
    handleElevenMsg ⟨some "ST1", some "CA1", none, true⟩ (.audio (some "QUJD") none)
      = (⟨some "ST1", some "CA1", none, true⟩,
         [Output.toTwilio (.media "ST1" "QUJD")]) :=
  ⟨rfl, by decide, by decide,
   (c6_thm _ "ST1").2.1 "QUJD" none rfl (by decide) (by decide)⟩

/-- C7, counterexample.  The claim says the decode-then-re-encode step
is the identity on every forwarded payload.  Node's decoder accepts
unpadded base64 and the re-encoder emits canonical padding, so the
unpadded payload `"QQ"` is forwarded as `"QQ=="`. -/
theorem c7_counterexample :
    handleTwilioMsg ⟨none, none, none, true⟩ (.media "QQ")
      = (⟨none, none, none, true⟩, [Output.toElevenAudio "QQ=="]) ∧
    ("QQ==" : String) ≠ "QQ" :=
  ⟨by decide, by decide⟩

/-- C7 (amended): for every forwarded telephony `media` frame whose
payload is canonical (padded) base64 — the encoding of some byte
sequence — the forwarded `user_audio_chunk` equals the original payload:
the decode-then-re-encode step is the identity on canonical base64, and
only re-pads non-canonical input. -/
theorem c7_amended (st : BridgeState) (bs : List Nat)
    (hopen : st.elevenOpen = true) (hbs : ∀ b ∈ bs, b < 256) :
    handleTwilioMsg st (.media (nodeB64Encode bs))
      = (st, [Output.toElevenAudio (nodeB64Encode bs)]) := by
  simp [handleTwilioMsg, hopen, forwardedChunk_encode bs hbs]

/-- Witness for C7: the canonical payload `"QUJD"` (bytes 65,66,67)
passes through unchanged. -/
theorem c7_witness :
    (∀ b ∈ [65, 66, 67], b < 256) ∧
    handleTwilioMsg ⟨none, none, none, true⟩ (.media (nodeB64Encode [65, 66, 67]))
      = (⟨none, none, none, true⟩, [Output.toElevenAudio (nodeB64Encode [65, 66, 67])]) :=
  ⟨by decide, c7_amended _ _ rfl (by decide)⟩

/-- C8: an AI `interruption` message with `streamSid = S` known makes
the handler emit exactly the frame `{event:"clear", streamSid:S}` to the
telephony connection (and nothing else); with no streamSid known (the
JS-falsy cases `null` and `""`, on which `if (streamSid)` fails) it
emits nothing at all.  The `S ≠ ""` hypothesis mirrors that guard. -/
theorem c8_thm (st : BridgeState) (S : String) :
    (st.streamSid = some S → S ≠ "" →
        handleElevenMsg st .interruption = (st, [Output.toTwilio (.clear S)])) ∧
    (truthy st.streamSid = none → handleElevenMsg st .interruption = (st, [])) := by
  constructor
  · intro h hS
    simp [handleElevenMsg, h, truthy, hS]
  · intro h
    simp [handleElevenMsg, h]

/-- Witness for C8: a concrete live state with `streamSid = "ST1"`. -/
theorem c8_witness :
    (⟨some "ST1", some "CA1", none, true⟩ : BridgeState).streamSid = some "ST1" ∧
    ("ST1" : String) ≠ "" ∧
    handleElevenMsg ⟨some "ST1", some "CA1", none, true⟩ .interruption
      = (⟨some "ST1", some "CA1", none, true⟩, [Output.toTwilio (.clear "ST1")]) :=
  ⟨rfl, by decide, (c8_thm _ "ST1").1 rfl (by decide)⟩

/-- C9: a malformed (unparseable) frame on either connection only
produces the corresponding catch-block log line: the session state is
unchanged, nothing is sent and no connection is closed, and a run
continues on the following messages exactly as if only the log had been
emitted. -/
theorem c9_thm (st : BridgeState) :
    handleTwilioMsg st .malformed = (st, [Output.log twilioErrLog]) ∧
    handleElevenMsg st .malformed = (st, [Output.log elevenErrLog]) ∧
    (∀ es : List Event,
        run st (Event.twilioMsg .malformed :: es)
          = ((run st es).1, Output.log twilioErrLog :: (run st es).2)) ∧
    (∀ es : List Event,
        run st (Event.elevenMsg .malformed :: es)
          = ((run st es).1, Output.log elevenErrLog :: (run st es).2)) :=
  ⟨rfl, rfl, fun _ => rfl, fun _ => rfl⟩

/-- C10: the observer registry is keyed by `callSid` alone.  After
`register(C, O1)` then `register(C, O2)` (which overwrites O1's entry),
O1's close/error handler still deletes key `C`, so the registry holds no
entry for `C`: a lookup finds nothing and `sendToFrontend` is the
warning no-op — O2, though still connected, receives nothing further
for `C`. -/
theorem c10_thm (r : Registry) (c : String) (o1 o2 : Nat) (openObs : Nat → Bool) :
    registryGet (observerClosed (observerConnect (observerConnect r c o1) c o2) c) c
      = none ∧
    sendToFrontend (observerClosed (observerConnect (observerConnect r c o1) c o2) c)
      openObs (some c) = none := by
  have h := registryGet_delete (observerConnect (observerConnect r c o1) c o2) c
  exact ⟨h, by simp [sendToFrontend, observerClosed] at *; simp [h]⟩

end Ampersand
